import Mathlib

/-!
Shallow embedding of the bbc-em emulator core (a BBC Micro emulator:
6502 CPU, 64 KiB memory map with hardware windows and sideways ROM
paging, and a 6522-style system VIA), together with theorems checking
the natural-language specification against the code.

Machine integers are modelled as `Nat` with explicit masking
(`% 256`, `% 65536`, `&&& 0xff`, ...) at the points where the Rust
code relies on fixed-width behaviour.  Fallible operations return
`Option`/`Except`; a Rust `panic!`/`unwrap`/`unreachable!` is modelled
as the `none` / `panicked` outcome.
-/

namespace BbcEm

/-- Bitwise complement of the low 8 bits, the model of `!x` on `u8`. -/
def comp8 (x : Nat) : Nat := 0xff ^^^ (x &&& 0xff)

/-! ## Memory map (`src/memory/map.rs`)

`Map` holds 64 KiB of bytes (modelled as a function from address to
byte), the last-hardware-access markers, the declared hardware ranges
(pairs of start/end bounds, from Rust `Range<usize>` values), the
sideways ROM images and the currently paged-in ROM index. -/

/-- A sideways ROM image: its length and its bytes. -/
structure Rom where
  size : Nat
  data : Nat → Nat

/-- Model of `Map` from `src/memory/map.rs`. -/
structure Map where
  bytes : Nat → Nat
  last_hw_write : Option (Nat × Nat)
  last_hw_read : Option Nat
  hw_ranges : List (Nat × Nat)
  paged_roms : List Rom
  current_paged_rom : Option Nat

/-- Model of `Map::new`. -/
def Map.new : Map :=
  { bytes := fun _ => 0
  , last_hw_write := none
  , last_hw_read := none
  , hw_ranges := []
  , paged_roms := []
  , current_paged_rom := none }

/-- Model of `fn value_within_range` (`map.rs:30-34`): note the test is
`val >= range.start && val <= range.end`, inclusive of `end`. -/
def valueWithinRange (val : Nat) (r : Nat × Nat) : Bool :=
  decide (r.1 ≤ val) && decide (val ≤ r.2)

/-- Constant `PAGED_ROM_REGISTER` (`map.rs:149`). -/
def PAGED_ROM_REGISTER : Nat := 0xfe30

/-- Start of `PAGED_ROM_MEMORY_RANGE` (`map.rs:150`). -/
def PAGED_ROM_START : Nat := 0x8000

/-- Length of the `0x8000..0xc000` paged ROM window. -/
def PAGED_ROM_LEN : Nat := 0x4000

/-- Model of the `io::copy` from the `0x8000..0xc000` window back into a
ROM image: copies `min 0x4000 rom.size` bytes. -/
def copyWindowToRom (bytes : Nat → Nat) (rom : Rom) : Rom :=
  { rom with data := fun i =>
      if i < min PAGED_ROM_LEN rom.size then bytes (PAGED_ROM_START + i)
      else rom.data i }

/-- Model of the `io::copy` from a ROM image into the `0x8000..0xc000`
window: copies `min 0x4000 rom.size` bytes. -/
def installRom (bytes : Nat → Nat) (rom : Rom) : Nat → Nat :=
  fun a =>
    if PAGED_ROM_START ≤ a ∧ a < PAGED_ROM_START + min PAGED_ROM_LEN rom.size then
      rom.data (a - PAGED_ROM_START)
    else bytes a

/-- Model of `Map::switch_paged_rom_to` (`map.rs:181-195`).  Out-of-range
`num` is a no-op.  If a ROM is currently recorded as paged in, the window
is first copied back into that ROM image; then ROM `num` is copied into
the window.  Note the source never updates `current_paged_rom`. -/
def Map.switchPagedRomTo (m : Map) (num : Nat) : Map :=
  match m.paged_roms.get? num with
  | none => m
  | some rom =>
    match m.current_paged_rom with
    | some n =>
      match m.paged_roms.get? n with
      | some cur =>
        let m1 := { m with paged_roms := m.paged_roms.set n (copyWindowToRom m.bytes cur) }
        { m1 with bytes := installRom m1.bytes rom }
      | none => { m with bytes := installRom m.bytes rom }
    | none => { m with bytes := installRom m.bytes rom }

/-- Model of `<Map as MemoryMap>::write` (`map.rs:208-225`). -/
def Map.write (m : Map) (loc val : Nat) : Map :=
  let m1 := if loc = PAGED_ROM_REGISTER then m.switchPagedRomTo val else m
  { m1 with
    bytes := fun a => if a = loc then val else m1.bytes a
    last_hw_write :=
      (m1.hw_ranges.find? (fun r => valueWithinRange loc r)).map (fun _ => (loc, val)) }

/-- Model of `<Map as MemoryMap>::read` (`map.rs:231-245`): returns the
byte and the map with its `last_hw_read` marker updated. -/
def Map.read (m : Map) (loc : Nat) : Nat × Map :=
  ( m.bytes loc
  , { m with
      last_hw_read :=
        (m.hw_ranges.find? (fun r => valueWithinRange loc r)).map (fun _ => loc) } )

/-- Model of `Map::add_paged_rom`. -/
def Map.addPagedRom (m : Map) (rom : Rom) : Map :=
  { m with paged_roms := m.paged_roms ++ [rom] }

/-- Model of `Map::with_hw_range`. -/
def Map.withHwRange (m : Map) (r : Nat × Nat) : Map :=
  { m with hw_ranges := m.hw_ranges ++ [r] }

/-! ## VIA interrupts (`src/via/interrupts.rs`) -/

/-- Model of `Interrupts` (`interrupts.rs:3-7`): the three internal
8-bit masks. -/
structure Interrupts where
  flags : Nat
  enabled : Nat
  signalled : Nat

/-- Model of `Interrupts::default`. -/
def Interrupts.default : Interrupts := { flags := 0, enabled := 0, signalled := 0 }

/-- Interrupt source bit numbers (`InterruptType`, `interrupts.rs:10-15`). -/
def KEYBOARD_INT : Nat := 0

/-- Bit number of `InterruptType::VerticalSync`. -/
def VSYNC_INT : Nat := 1

/-- Bit number of `InterruptType::Timer2`. -/
def TIMER2_INT : Nat := 5

/-- Bit number of `InterruptType::Timer1`. -/
def TIMER1_INT : Nat := 6

/-- Model of `Interrupts::signal_one` (`interrupts.rs:128-131`): ORs the
bit into `signalled`, then ORs the whole of `signalled` into `flags`. -/
def Interrupts.signalOne (i : Interrupts) (t : Nat) : Interrupts :=
  let s := i.signalled ||| (1 <<< (t &&& 0x07))
  { i with signalled := s, flags := i.flags ||| s }

/-- Model of `Interrupts::clear_flags` (`interrupts.rs:141-146`): clears
the low-7 bits set in the operand, then sets bit 7 if any low bit
remains (it never clears bit 7). -/
def Interrupts.clearFlags (i : Interrupts) (f : Nat) : Interrupts :=
  let fl := i.flags &&& comp8 (f &&& 0x7f)
  { i with flags := if fl &&& 0x7f ≠ 0 then fl ||| 0x80 else fl }

/-- Model of the `Interrupts::flags` accessor (`interrupts.rs:80-89`):
the IFR value as rendered into the register window (`0` when no low bit
is set, otherwise `0x80` ORed with the low bits). -/
def Interrupts.flagsReg (i : Interrupts) : Nat :=
  if i.flags &&& 0x7f > 0 then 0x80 ||| (i.flags &&& 0x7f) else 0

/-- Model of the `Interrupts::enabled` accessor (`interrupts.rs:76-78`). -/
def Interrupts.enabledReg (i : Interrupts) : Nat :=
  0x80 ||| (0x7f &&& i.enabled)

/-- Model of `Interrupts::set_enabled` (`interrupts.rs:133-139`). -/
def Interrupts.setEnabled (i : Interrupts) (e : Nat) : Interrupts :=
  if e &&& 0x80 = 0x80 then { i with enabled := i.enabled ||| ((e &&& 0x7f) ||| 0x80) }
  else if e &&& 0x80 = 0x00 then { i with enabled := i.enabled &&& (comp8 (e &&& 0x7f) &&& 0x7f) }
  else i

/-- Model of `Interrupts::drain_signalled` (`interrupts.rs:95-99`):
returns `signalled & enabled()` and zeroes `signalled`. -/
def Interrupts.drainSignalled (i : Interrupts) : Nat × Interrupts :=
  (i.signalled &&& i.enabledReg, { i with signalled := 0 })

/-- Model of `InterruptIterator`: how many of the bit positions it
yields (0, 1, 5 and 6; bits 2-4 are skipped and bit 7 is never reached)
are set in the mask.  `System::step` raises its IRQ callback exactly
when this count is positive. -/
def iterCount (mask : Nat) : Nat :=
  (if mask.testBit 0 then 1 else 0) + (if mask.testBit 1 then 1 else 0) +
  (if mask.testBit 5 then 1 else 0) + (if mask.testBit 6 then 1 else 0)

/-! ## VIA peripheral ports and keyboard (`src/via/peripheral_port.rs`,
`src/via/registers.rs`) -/

/-- Model of `PeripheralPort` (`peripheral_port.rs:20-24`). -/
structure PeripheralPort where
  ioLatch : Nat
  ddr : Nat

/-- Model of `PeripheralPort::default`. -/
def PeripheralPort.default : PeripheralPort := { ioLatch := 0, ddr := 0 }

/-- Model of `PeripheralPort::write` (`peripheral_port.rs:54-56`). -/
def PeripheralPort.write (p : PeripheralPort) (val : Nat) : PeripheralPort :=
  { p with ioLatch := (val &&& p.ddr) ||| comp8 p.ddr }

/-- Model of `PeripheralPort::read` (`peripheral_port.rs:50-52`). -/
def PeripheralPort.read (p : PeripheralPort) : Nat :=
  p.ioLatch &&& comp8 p.ddr

/-- The `KEY_MAP` table (`registers.rs:14-41`): entries are
`(host key number, matrix row, matrix column)`. -/
def keyMap : List (Nat × Nat × Nat) :=
  [ (10, 4, 7), (11, 4, 1), (12, 6, 4), (13, 3, 2), (14, 2, 2), (15, 4, 3)
  , (16, 5, 3), (17, 5, 4), (18, 2, 6), (19, 4, 5), (20, 4, 6), (21, 5, 6)
  , (22, 6, 5), (23, 5, 5), (24, 3, 6), (25, 3, 7), (26, 1, 0), (27, 3, 3)
  , (28, 5, 1), (29, 2, 3), (30, 3, 5), (31, 6, 3), (32, 2, 1), (33, 4, 2)
  , (34, 4, 4), (35, 6, 1) ]

/-- Model of `KeyboardBuffer` (`registers.rs:43-48`): a 16-slot array of
host key numbers (modelled as a function from index), the next free
index, and the write-enable flag. -/
structure KeyboardBuffer where
  buffer : Nat → Nat
  next : Nat
  write_enabled : Bool

/-- Model of `KeyboardBuffer::default`. -/
def KeyboardBuffer.default : KeyboardBuffer :=
  { buffer := fun _ => 0, next := 0, write_enabled := false }

/-- Model of `KeyboardBuffer::key_down` (`registers.rs:51-54`): stores the
key at index `next`, then advances `next` with 4-bit wraparound. -/
def KeyboardBuffer.keyDown (b : KeyboardBuffer) (keynum : Nat) : KeyboardBuffer :=
  { b with
    buffer := fun i => if i = b.next then keynum else b.buffer i
    next := (b.next + 1) &&& 0x0f }

/-- Model of `KeyboardBuffer::clear` (`registers.rs:56-59`). -/
def KeyboardBuffer.clear (b : KeyboardBuffer) : KeyboardBuffer :=
  { b with buffer := fun _ => 0, next := 0 }

/-- Model of `KeyboardBuffer::len` (`registers.rs:61-63`). -/
def KeyboardBuffer.len (b : KeyboardBuffer) : Nat := b.next

/-- The slice `buffer[..next]` of currently held host keys. -/
def KeyboardBuffer.held (b : KeyboardBuffer) : List Nat :=
  (List.range b.next).map b.buffer

/-- Model of `KeyboardBuffer::is_emulated_key_down` (`registers.rs:65-78`):
decodes `(row, col)` from the probe byte and consults only
`buffer[..next]` through the key map. -/
def KeyboardBuffer.isEmulatedKeyDown (b : KeyboardBuffer) (rowcol : Nat) : Bool :=
  let row := (rowcol >>> 4) &&& 0x07
  let col := rowcol &&& 0x0f
  ((keyMap.filter fun k =>
      ((b.held.find? fun bb => k.1 = bb)).isSome).find? fun k =>
        row = k.2.1 ∧ col = k.2.2).isSome

/-- The IC latch indices (`registers.rs:81-88`). -/
def SOUND_IC_LATCH : Nat := 0

/-- Latch index `SPEECH_READ_IC_LATCH`. -/
def SPEECH_READ_IC_LATCH : Nat := 1

/-- Latch index `SPEECH_WRITE_IC_LATCH`. -/
def SPEECH_WRITE_IC_LATCH : Nat := 2

/-- Latch index `KEYBOARD_IC_LATCH`. -/
def KEYBOARD_IC_LATCH : Nat := 3

/-- Latch index `HW_SCROLL_LOW_LATCH`. -/
def HW_SCROLL_LOW_LATCH : Nat := 4

/-- Latch index `HW_SCROLL_HIGH_LATCH`. -/
def HW_SCROLL_HIGH_LATCH : Nat := 5

/-- Latch index `CAPS_LATCH`. -/
def CAPS_LATCH : Nat := 6

/-- Latch index `SHIFT_LATCH`. -/
def SHIFT_LATCH : Nat := 7

/-- Model of the VIA `Registers` struct (`registers.rs:90-98`), with the
eight IC latches as a function from latch index. -/
structure ViaRegisters where
  pa1 : PeripheralPort
  pb : PeripheralPort
  interrupts : Interrupts
  pa2 : PeripheralPort
  keyboard_buffer : KeyboardBuffer
  latches : Nat → Bool

/-- Model of `Registers::new` / `Registers::default`. -/
def ViaRegisters.new : ViaRegisters :=
  { pa1 := PeripheralPort.default
  , pb := PeripheralPort.default
  , interrupts := Interrupts.default
  , pa2 := PeripheralPort.default
  , keyboard_buffer := KeyboardBuffer.default
  , latches := fun _ => false }

/-- Update one latch in the latch array. -/
def updLatch (l : Nat → Bool) (i : Nat) (f : Bool) : Nat → Bool :=
  fun j => if j = i then f else l j

/-- Model of `Registers::is_keyboard_write_enabled` (`registers.rs:107-109`). -/
def ViaRegisters.isKeyboardWriteEnabled (r : ViaRegisters) : Bool :=
  r.latches KEYBOARD_IC_LATCH

/-- Model of `Registers::write_port_b_io` (`registers.rs:134-159`): the
latch selector is `val & 0x03` (two bits) and the latched value is bit 3.
The final match arm is a `panic!`, modelled as `none`; it is unreachable
because `val & 0x03 ≤ 3`. -/
def ViaRegisters.writePortBIo (r : ViaRegisters) (val : Nat) : Option ViaRegisters :=
  let r1 := { r with pb := r.pb.write val }
  let f := val.testBit 3
  if val &&& 0x03 = 0 then some { r1 with latches := updLatch r1.latches SOUND_IC_LATCH f }
  else if val &&& 0x03 = 1 then some { r1 with latches := updLatch r1.latches SPEECH_READ_IC_LATCH f }
  else if val &&& 0x03 = 2 then some { r1 with latches := updLatch r1.latches SPEECH_WRITE_IC_LATCH f }
  else if val &&& 0x03 = 3 then some { r1 with latches := updLatch r1.latches KEYBOARD_IC_LATCH f }
  else none

/-- Model of `Registers::write_port_a1_io` (`registers.rs:117-119`): log
only, no state change. -/
def ViaRegisters.writePortA1Io (r : ViaRegisters) (_val : Nat) : ViaRegisters := r

/-- Model of `Registers::write_port_a2_io` (`registers.rs:121-132`):
latches the written value into port A2, signals the Keyboard interrupt
when the ring is non-empty, and if keyboard write is disabled and the
probe finds no held key, clears bit 7 of the port A2 latch. -/
def ViaRegisters.writePortA2Io (r : ViaRegisters) (val : Nat) : ViaRegisters :=
  let r1 := { r with pa2 := r.pa2.write val }
  let r2 :=
    if r1.keyboard_buffer.len > 0 then
      { r1 with interrupts := r1.interrupts.signalOne KEYBOARD_INT }
    else r1
  if ¬r2.isKeyboardWriteEnabled ∧
      ¬r2.keyboard_buffer.isEmulatedKeyDown r2.pa2.ioLatch then
    { r2 with pa2 := { r2.pa2 with ioLatch := val &&& 0x7f } }
  else r2

/-- Model of `Registers::set_port_a_ddr` (`registers.rs:161-164`). -/
def ViaRegisters.setPortADdr (r : ViaRegisters) (val : Nat) : ViaRegisters :=
  { r with pa1 := { r.pa1 with ddr := val }, pa2 := { r.pa2 with ddr := val } }

/-- Model of `Registers::set_port_b_ddr` (`registers.rs:166-168`). -/
def ViaRegisters.setPortBDdr (r : ViaRegisters) (val : Nat) : ViaRegisters :=
  { r with pb := { r.pb with ddr := val } }

/-- Model of `Registers::key_down` (`registers.rs:182-186`). -/
def ViaRegisters.keyDown (r : ViaRegisters) (keynum : Nat) : ViaRegisters :=
  { r with
    keyboard_buffer := r.keyboard_buffer.keyDown keynum
    interrupts := r.interrupts.signalOne KEYBOARD_INT }

/-- Model of `Registers::write_to` (`registers.rs:170-180`): renders the
register bytes into the `0xfe40..0xfe50` window of the memory map
(offsets 0, 1, 2, 3, 13, 14, 15). -/
def ViaRegisters.writeTo (r : ViaRegisters) (m : Map) : Map :=
  { m with bytes := fun a =>
      if a = 0xfe40 then r.pb.read
      else if a = 0xfe42 then r.pb.ddr &&& 0xff
      else if a = 0xfe41 then r.pa1.read
      else if a = 0xfe43 then r.pa1.ddr &&& 0xff
      else if a = 0xfe4d then r.interrupts.flagsReg
      else if a = 0xfe4e then r.interrupts.enabledReg
      else if a = 0xfe4f then r.pa2.read
      else m.bytes a }

/-! ## System VIA (`src/via/system.rs`) -/

/-- Constant `MHZ` (`system.rs:7`). -/
def MHZ : Nat := 2000000

/-- Constant `CYCLES_PER_MS` (`system.rs:8`). -/
def CYCLES_PER_MS : Nat := MHZ / 1000

/-- Constant `TIMER_FREQ` (`system.rs:9`): note the source multiplies the
per-millisecond cycle count by 200, giving 400000 cycles (200 ms). -/
def TIMER_FREQ : Nat := CYCLES_PER_MS * 200

/-- The VIA register addresses (`system.rs:18-26`). -/
def PB_IO_REG : Nat := 0xfe40

/-- Register address `PA1_IO_REG`. -/
def PA1_IO_REG : Nat := 0xfe41

/-- Register address `PB_DDR_REG`. -/
def PB_DDR_REG : Nat := 0xfe42

/-- Register address `PA_DDR_REG`. -/
def PA_DDR_REG : Nat := 0xfe43

/-- Register address `IFR_REGISTER`. -/
def IFR_REGISTER : Nat := 0xfe4d

/-- Register address `IER_REGISTER`. -/
def IER_REGISTER : Nat := 0xfe4e

/-- Register address `PA2_IO_REG`. -/
def PA2_IO_REG : Nat := 0xfe4f

/-- Model of the VIA `System` struct (`system.rs:11-16`). -/
structure ViaSystem where
  cycles_elapsed : Nat
  timer_count : Nat
  kb_write : Bool
  registers : ViaRegisters

/-- Model of `System::new` (`system.rs:29-36`). -/
def ViaSystem.new : ViaSystem :=
  { cycles_elapsed := 0, timer_count := 0, kb_write := true
  , registers := ViaRegisters.new }

/-- Model of `System::process_reads_and_writes` (`system.rs:38-110`).
Only the last hardware write is inspected (the read match is commented
out in the source).  `none` models the unreachable `panic!` inside
`write_port_b_io`. -/
def ViaSystem.processReadsAndWrites (s : ViaSystem) (_rd : Option Nat)
    (wr : Option (Nat × Nat)) : Option ViaSystem :=
  match wr with
  | none => some s
  | some (addr, val) =>
    if addr = PB_IO_REG then
      let s1 := if val &&& 0x07 = 3 then { s with kb_write := (0x08 = (val &&& 0x08)) } else s
      match s1.registers.writePortBIo val with
      | none => none
      | some r1 => some { s1 with registers :=
          { r1 with interrupts := r1.interrupts.clearFlags 0x18 } }
    else if addr = PA1_IO_REG then
      let r1 := s.registers.writePortA1Io val
      some { s with registers :=
        { r1 with interrupts := r1.interrupts.clearFlags ((1 <<< KEYBOARD_INT) ||| (1 <<< VSYNC_INT)) } }
    else if addr = PA2_IO_REG then
      let r1 := s.registers.writePortA2Io val
      some { s with registers :=
        { r1 with interrupts := r1.interrupts.clearFlags ((1 <<< KEYBOARD_INT) ||| (1 <<< VSYNC_INT)) } }
    else if addr = PB_DDR_REG then
      some { s with registers := s.registers.setPortBDdr val }
    else if addr = PA_DDR_REG then
      some { s with registers := s.registers.setPortADdr val }
    else if addr = IFR_REGISTER then
      some { s with registers :=
        { s.registers with interrupts := s.registers.interrupts.clearFlags val } }
    else if addr = IER_REGISTER then
      some { s with registers :=
        { s.registers with interrupts := s.registers.interrupts.setEnabled val } }
    else some s

/-- Model of `System::step` (`system.rs:112-159`): accumulate cycles,
react to the last hardware access, fire the timer when `timer_count`
reaches `TIMER_FREQ` (resetting by subtraction), drain the signalled
mask (the IRQ callback fires when the drained mask is non-empty under
the iterator), and render the registers back into the memory window.
Returns the new system, the new memory, and whether the IRQ callback
was invoked. -/
def ViaSystem.step (s : ViaSystem) (cycles : Nat) (m : Map) :
    Option (ViaSystem × Map × Bool) :=
  let s1 := { s with
    cycles_elapsed := (s.cycles_elapsed + cycles) % 2 ^ 64
    timer_count := s.timer_count + cycles }
  match s1.processReadsAndWrites m.last_hw_read m.last_hw_write with
  | none => none
  | some s2 =>
    let s3 :=
      if s2.timer_count ≥ TIMER_FREQ then
        let i1 := (s2.registers.interrupts.signalOne TIMER1_INT).signalOne VSYNC_INT
        { s2 with
          registers := { s2.registers with interrupts := i1 }
          timer_count := s2.timer_count - TIMER_FREQ }
      else s2
    let d := s3.registers.interrupts.drainSignalled
    let s4 := { s3 with registers := { s3.registers with interrupts := d.2 } }
    let irq := decide (iterCount d.1 > 0)
    some (s4, s4.registers.writeTo m, irq)

/-! ## CPU (`src/cpu/mod.rs`) -/

/-- Model of `enum Addressing` (`cpu/mod.rs:7-21`). -/
inductive Addressing where
  | Implied
  | Accumulator
  | Immediate (v : Nat)
  | Relative (off : Int)
  | ZeroPage (loc : Nat)
  | ZeroPageX (loc : Nat)
  | ZeroPageY (loc : Nat)
  | Absolute (loc : Nat)
  | AbsoluteX (loc : Nat)
  | AbsoluteY (loc : Nat)
  | Indirect (loc : Nat)
  | IndirectX (loc : Nat)
  | IndirectY (loc : Nat)
  deriving DecidableEq

/-- Model of `enum OpCode` (`cpu/mod.rs:45-103`). -/
inductive OpCode where
  | Adc | And | Asl | Bcc | Bcs | Beq | Bit | Bmi | Bne | Bpl | Brk
  | Bvc | Bvs | Clc | Cld | Cli | Clv | Cmp | Cpx | Cpy | Dec | Dex
  | Dey | Eor | Inc | Inx | Iny | Jmp | Jsr | Lda | Ldx | Ldy | Lsr
  | Nop | Ora | Pha | Php | Pla | Plp | Rol | Ror | Rti | Rts | Sbc
  | Sec | Sed | Sei | Sta | Stx | Sty | Tax | Tay | Tsx | Txa | Txs
  | Tya
  deriving DecidableEq

/-- Model of `struct Instruction(OpCode, Addressing, usize)`. -/
structure Instr where
  op : OpCode
  mode : Addressing
  baseCycles : Nat
  deriving DecidableEq

/-- Model of `enum StackError` (`cpu/mod.rs:447-451`). -/
inductive StackError where
  | Overflow | Underflow | Unavailable
  deriving DecidableEq

/-- Model of `enum CpuError` (`cpu/mod.rs:454-459`); the `Memory` payload
is irrelevant to the claims and dropped. -/
inductive CpuError where
  | Memory
  | Stack (e : StackError)
  | InvalidInstruction
  | Paused
  deriving DecidableEq

/-- Model of `struct StatusFlags` (`cpu/mod.rs:118-126`). -/
structure StatusFlags where
  negative : Bool
  overflow : Bool
  brk : Bool
  decimal : Bool
  interrupt : Bool
  zero : Bool
  carry : Bool
  deriving DecidableEq

/-- Model of `StatusFlags::new` (all flags false). -/
def StatusFlags.new : StatusFlags :=
  { negative := false, overflow := false, brk := false, decimal := false
  , interrupt := false, zero := false, carry := false }

/-- Model of `From<&StatusFlags> for u8` (`cpu/mod.rs:142-153`): pack the
flags into a byte, with bit 5 always set. -/
def statusToByte (f : StatusFlags) : Nat :=
  (if f.carry then 1 else 0) |||
  ((if f.zero then 1 else 0) <<< 1) |||
  ((if f.interrupt then 1 else 0) <<< 2) |||
  ((if f.decimal then 1 else 0) <<< 3) |||
  ((if f.brk then 1 else 0) <<< 4) |||
  (1 <<< 5) |||
  ((if f.overflow then 1 else 0) <<< 6) |||
  ((if f.negative then 1 else 0) <<< 7)

/-- Model of `From<u8> for StatusFlags` (`cpu/mod.rs:155-167`). -/
def byteToStatus (b : Nat) : StatusFlags :=
  { carry := b.testBit 0, zero := b.testBit 1, interrupt := b.testBit 2
  , decimal := b.testBit 3, brk := b.testBit 4, overflow := b.testBit 6
  , negative := b.testBit 7 }

/-- Model of `struct Registers` (`cpu/mod.rs:170-177`). -/
structure CpuRegisters where
  pc : Nat
  sp : Nat
  acc : Nat
  x : Nat
  y : Nat
  status : StatusFlags
  deriving DecidableEq

/-- Model of `Registers::new`. -/
def CpuRegisters.new : CpuRegisters :=
  { pc := 0, sp := 0, acc := 0, x := 0, y := 0, status := StatusFlags.new }

/-- Model of `decode_u8`: next operand byte, if present. -/
def decU8 : List Nat → Option Nat
  | [] => none
  | v :: _ => some v

/-- Model of `decode_i8`: next operand byte, reinterpreted as a signed
8-bit value. -/
def decI8 : List Nat → Option Int
  | [] => none
  | v :: _ => some (if v % 256 < 128 then (v % 256 : Int) else (v % 256 : Int) - 256)

/-- Model of `decode_u16`: little-endian 16-bit operand, if both bytes
are present. -/
def decU16 : List Nat → Option Nat
  | lo :: hi :: _ => some (lo ||| (hi <<< 8))
  | _ => none

/-- Model of `decode_instruction` (`cpu/mod.rs:217-441`): the full
256-entry opcode table, returning the number of bytes consumed and the
instruction (with the base cycle count exactly as in the source).
`none` models `Err(InstructionDecodeError)`. -/
def decodeInstruction : List Nat → Option (Nat × Instr)
  | [] => none
  | opcode :: rest =>
    match opcode with
    | 0x69 => (decU8 rest).map fun v => (2, ⟨.Adc, .Immediate v, 2⟩)
    | 0x65 => (decU8 rest).map fun v => (2, ⟨.Adc, .ZeroPage v, 3⟩)
    | 0x75 => (decU8 rest).map fun v => (2, ⟨.Adc, .ZeroPageX v, 4⟩)
    | 0x6d => (decU16 rest).map fun v => (3, ⟨.Adc, .Absolute v, 4⟩)
    | 0x7d => (decU16 rest).map fun v => (3, ⟨.Adc, .AbsoluteX v, 4⟩)
    | 0x79 => (decU16 rest).map fun v => (3, ⟨.Adc, .AbsoluteY v, 4⟩)
    | 0x61 => (decU8 rest).map fun v => (2, ⟨.Adc, .IndirectX v, 6⟩)
    | 0x71 => (decU8 rest).map fun v => (2, ⟨.Adc, .IndirectY v, 5⟩)
    | 0x29 => (decU8 rest).map fun v => (2, ⟨.And, .Immediate v, 2⟩)
    | 0x25 => (decU8 rest).map fun v => (2, ⟨.And, .ZeroPage v, 3⟩)
    | 0x35 => (decU8 rest).map fun v => (2, ⟨.And, .ZeroPageX v, 4⟩)
    | 0x2d => (decU16 rest).map fun v => (3, ⟨.And, .Absolute v, 4⟩)
    | 0x3d => (decU16 rest).map fun v => (3, ⟨.And, .AbsoluteX v, 4⟩)
    | 0x39 => (decU16 rest).map fun v => (3, ⟨.And, .AbsoluteY v, 4⟩)
    | 0x21 => (decU8 rest).map fun v => (2, ⟨.And, .IndirectX v, 6⟩)
    | 0x31 => (decU8 rest).map fun v => (2, ⟨.And, .IndirectY v, 5⟩)
    | 0x0a => some (1, ⟨.Asl, .Accumulator, 2⟩)
    | 0x06 => (decU8 rest).map fun v => (2, ⟨.Asl, .ZeroPage v, 5⟩)
    | 0x16 => (decU8 rest).map fun v => (2, ⟨.Asl, .ZeroPageX v, 6⟩)
    | 0x0e => (decU16 rest).map fun v => (3, ⟨.Asl, .Absolute v, 6⟩)
    | 0x1e => (decU16 rest).map fun v => (3, ⟨.Asl, .AbsoluteX v, 7⟩)
    | 0x90 => (decI8 rest).map fun v => (2, ⟨.Bcc, .Relative v, 2⟩)
    | 0xb0 => (decI8 rest).map fun v => (2, ⟨.Bcs, .Relative v, 2⟩)
    | 0xf0 => (decI8 rest).map fun v => (2, ⟨.Beq, .Relative v, 2⟩)
    | 0x30 => (decI8 rest).map fun v => (2, ⟨.Bmi, .Relative v, 2⟩)
    | 0xd0 => (decI8 rest).map fun v => (2, ⟨.Bne, .Relative v, 2⟩)
    | 0x10 => (decI8 rest).map fun v => (2, ⟨.Bpl, .Relative v, 2⟩)
    | 0x50 => (decI8 rest).map fun v => (2, ⟨.Bvc, .Relative v, 2⟩)
    | 0x70 => (decI8 rest).map fun v => (2, ⟨.Bvs, .Relative v, 2⟩)
    | 0x24 => (decU8 rest).map fun v => (2, ⟨.Bit, .ZeroPage v, 3⟩)
    | 0x2c => (decU16 rest).map fun v => (3, ⟨.Bit, .Absolute v, 4⟩)
    | 0x00 => some (1, ⟨.Brk, .Implied, 7⟩)
    | 0x18 => some (1, ⟨.Clc, .Implied, 2⟩)
    | 0xd8 => some (1, ⟨.Cld, .Implied, 2⟩)
    | 0x58 => some (1, ⟨.Cli, .Implied, 2⟩)
    | 0xb8 => some (1, ⟨.Clv, .Implied, 2⟩)
    | 0xc9 => (decU8 rest).map fun v => (2, ⟨.Cmp, .Immediate v, 2⟩)
    | 0xc5 => (decU8 rest).map fun v => (2, ⟨.Cmp, .ZeroPage v, 2⟩)
    | 0xd5 => (decU8 rest).map fun v => (2, ⟨.Cmp, .ZeroPageX v, 4⟩)
    | 0xcd => (decU16 rest).map fun v => (3, ⟨.Cmp, .Absolute v, 4⟩)
    | 0xdd => (decU16 rest).map fun v => (3, ⟨.Cmp, .AbsoluteX v, 4⟩)
    | 0xd9 => (decU16 rest).map fun v => (3, ⟨.Cmp, .AbsoluteY v, 4⟩)
    | 0xc1 => (decU8 rest).map fun v => (2, ⟨.Cmp, .IndirectX v, 6⟩)
    | 0xd1 => (decU8 rest).map fun v => (2, ⟨.Cmp, .IndirectY v, 5⟩)
    | 0xe0 => (decU8 rest).map fun v => (2, ⟨.Cpx, .Immediate v, 2⟩)
    | 0xe4 => (decU8 rest).map fun v => (2, ⟨.Cpx, .ZeroPage v, 3⟩)
    | 0xec => (decU16 rest).map fun v => (3, ⟨.Cpx, .Absolute v, 4⟩)
    | 0xc0 => (decU8 rest).map fun v => (2, ⟨.Cpy, .Immediate v, 2⟩)
    | 0xc4 => (decU8 rest).map fun v => (2, ⟨.Cpy, .ZeroPage v, 3⟩)
    | 0xcc => (decU16 rest).map fun v => (3, ⟨.Cpy, .Absolute v, 4⟩)
    | 0xc6 => (decU8 rest).map fun v => (2, ⟨.Dec, .ZeroPage v, 5⟩)
    | 0xd6 => (decU8 rest).map fun v => (2, ⟨.Dec, .ZeroPageX v, 6⟩)
    | 0xce => (decU16 rest).map fun v => (3, ⟨.Dec, .Absolute v, 3⟩)
    | 0xde => (decU16 rest).map fun v => (3, ⟨.Dec, .AbsoluteX v, 7⟩)
    | 0xca => some (1, ⟨.Dex, .Implied, 2⟩)
    | 0x88 => some (1, ⟨.Dey, .Implied, 2⟩)
    | 0x49 => (decU8 rest).map fun v => (2, ⟨.Eor, .Immediate v, 2⟩)
    | 0x45 => (decU8 rest).map fun v => (2, ⟨.Eor, .ZeroPage v, 3⟩)
    | 0x55 => (decU8 rest).map fun v => (2, ⟨.Eor, .ZeroPageX v, 4⟩)
    | 0x4d => (decU16 rest).map fun v => (3, ⟨.Eor, .Absolute v, 4⟩)
    | 0x5d => (decU16 rest).map fun v => (3, ⟨.Eor, .AbsoluteX v, 4⟩)
    | 0x59 => (decU16 rest).map fun v => (3, ⟨.Eor, .AbsoluteY v, 4⟩)
    | 0x41 => (decU8 rest).map fun v => (2, ⟨.Eor, .IndirectX v, 6⟩)
    | 0x51 => (decU8 rest).map fun v => (2, ⟨.Eor, .IndirectY v, 5⟩)
    | 0xe6 => (decU8 rest).map fun v => (2, ⟨.Inc, .ZeroPage v, 5⟩)
    | 0xf6 => (decU8 rest).map fun v => (2, ⟨.Inc, .ZeroPageX v, 6⟩)
    | 0xee => (decU16 rest).map fun v => (3, ⟨.Inc, .Absolute v, 6⟩)
    | 0xfe => (decU16 rest).map fun v => (3, ⟨.Inc, .AbsoluteX v, 7⟩)
    | 0xe8 => some (1, ⟨.Inx, .Implied, 2⟩)
    | 0xc8 => some (1, ⟨.Iny, .Implied, 2⟩)
    | 0x4c => (decU16 rest).map fun v => (3, ⟨.Jmp, .Absolute v, 3⟩)
    | 0x6c => (decU16 rest).map fun v => (3, ⟨.Jmp, .Indirect v, 5⟩)
    | 0x20 => (decU16 rest).map fun v => (3, ⟨.Jsr, .Absolute v, 6⟩)
    | 0xa9 => (decU8 rest).map fun v => (2, ⟨.Lda, .Immediate v, 2⟩)
    | 0xa5 => (decU8 rest).map fun v => (2, ⟨.Lda, .ZeroPage v, 3⟩)
    | 0xb5 => (decU8 rest).map fun v => (2, ⟨.Lda, .ZeroPageX v, 4⟩)
    | 0xad => (decU16 rest).map fun v => (3, ⟨.Lda, .Absolute v, 4⟩)
    | 0xbd => (decU16 rest).map fun v => (3, ⟨.Lda, .AbsoluteX v, 4⟩)
    | 0xb9 => (decU16 rest).map fun v => (3, ⟨.Lda, .AbsoluteY v, 4⟩)
    | 0xa1 => (decU8 rest).map fun v => (2, ⟨.Lda, .IndirectX v, 6⟩)
    | 0xb1 => (decU8 rest).map fun v => (2, ⟨.Lda, .IndirectY v, 5⟩)
    | 0xa2 => (decU8 rest).map fun v => (2, ⟨.Ldx, .Immediate v, 2⟩)
    | 0xa6 => (decU8 rest).map fun v => (2, ⟨.Ldx, .ZeroPage v, 3⟩)
    | 0xb6 => (decU8 rest).map fun v => (2, ⟨.Ldx, .ZeroPageY v, 4⟩)
    | 0xae => (decU16 rest).map fun v => (3, ⟨.Ldx, .Absolute v, 4⟩)
    | 0xbe => (decU16 rest).map fun v => (3, ⟨.Ldx, .AbsoluteY v, 4⟩)
    | 0xa0 => (decU8 rest).map fun v => (2, ⟨.Ldy, .Immediate v, 2⟩)
    | 0xa4 => (decU8 rest).map fun v => (2, ⟨.Ldy, .ZeroPage v, 3⟩)
    | 0xb4 => (decU8 rest).map fun v => (2, ⟨.Ldy, .ZeroPageX v, 4⟩)
    | 0xac => (decU16 rest).map fun v => (3, ⟨.Ldy, .Absolute v, 4⟩)
    | 0xbc => (decU16 rest).map fun v => (3, ⟨.Ldy, .AbsoluteX v, 4⟩)
    | 0x4a => some (1, ⟨.Lsr, .Accumulator, 2⟩)
    | 0x46 => (decU8 rest).map fun v => (2, ⟨.Lsr, .ZeroPage v, 5⟩)
    | 0x56 => (decU8 rest).map fun v => (2, ⟨.Lsr, .ZeroPageX v, 6⟩)
    | 0x4e => (decU16 rest).map fun v => (3, ⟨.Lsr, .Absolute v, 6⟩)
    | 0x5e => (decU16 rest).map fun v => (3, ⟨.Lsr, .AbsoluteX v, 7⟩)
    | 0xea => some (1, ⟨.Nop, .Implied, 2⟩)
    | 0x09 => (decU8 rest).map fun v => (2, ⟨.Ora, .Immediate v, 2⟩)
    | 0x05 => (decU8 rest).map fun v => (2, ⟨.Ora, .ZeroPage v, 3⟩)
    | 0x15 => (decU8 rest).map fun v => (2, ⟨.Ora, .ZeroPageX v, 4⟩)
    | 0x0d => (decU16 rest).map fun v => (3, ⟨.Ora, .Absolute v, 4⟩)
    | 0x1d => (decU16 rest).map fun v => (3, ⟨.Ora, .AbsoluteX v, 4⟩)
    | 0x19 => (decU16 rest).map fun v => (3, ⟨.Ora, .AbsoluteY v, 4⟩)
    | 0x01 => (decU8 rest).map fun v => (2, ⟨.Ora, .IndirectX v, 6⟩)
    | 0x11 => (decU8 rest).map fun v => (2, ⟨.Ora, .IndirectY v, 5⟩)
    | 0x48 => some (1, ⟨.Pha, .Implied, 3⟩)
    | 0x08 => some (1, ⟨.Php, .Implied, 3⟩)
    | 0x68 => some (1, ⟨.Pla, .Implied, 4⟩)
    | 0x28 => some (1, ⟨.Plp, .Implied, 4⟩)
    | 0x2a => some (1, ⟨.Rol, .Accumulator, 2⟩)
    | 0x26 => (decU8 rest).map fun v => (2, ⟨.Rol, .ZeroPage v, 5⟩)
    | 0x36 => (decU8 rest).map fun v => (2, ⟨.Rol, .ZeroPageX v, 6⟩)
    | 0x2e => (decU16 rest).map fun v => (3, ⟨.Rol, .Absolute v, 6⟩)
    | 0x3e => (decU16 rest).map fun v => (3, ⟨.Rol, .AbsoluteX v, 7⟩)
    | 0x6a => some (1, ⟨.Ror, .Accumulator, 2⟩)
    | 0x66 => (decU8 rest).map fun v => (2, ⟨.Ror, .ZeroPage v, 5⟩)
    | 0x76 => (decU8 rest).map fun v => (2, ⟨.Ror, .ZeroPageX v, 6⟩)
    | 0x6e => (decU16 rest).map fun v => (3, ⟨.Ror, .Absolute v, 6⟩)
    | 0x7e => (decU16 rest).map fun v => (3, ⟨.Ror, .AbsoluteX v, 7⟩)
    | 0x40 => some (1, ⟨.Rti, .Implied, 6⟩)
    | 0x60 => some (1, ⟨.Rts, .Implied, 6⟩)
    | 0xe9 => (decU8 rest).map fun v => (2, ⟨.Sbc, .Immediate v, 2⟩)
    | 0xe5 => (decU8 rest).map fun v => (2, ⟨.Sbc, .ZeroPage v, 3⟩)
    | 0xf5 => (decU8 rest).map fun v => (2, ⟨.Sbc, .ZeroPageX v, 4⟩)
    | 0xed => (decU16 rest).map fun v => (3, ⟨.Sbc, .Absolute v, 4⟩)
    | 0xfd => (decU16 rest).map fun v => (3, ⟨.Sbc, .AbsoluteX v, 4⟩)
    | 0xf9 => (decU16 rest).map fun v => (3, ⟨.Sbc, .AbsoluteY v, 4⟩)
    | 0xe1 => (decU8 rest).map fun v => (2, ⟨.Sbc, .IndirectX v, 6⟩)
    | 0xf1 => (decU8 rest).map fun v => (2, ⟨.Sbc, .IndirectY v, 5⟩)
    | 0x38 => some (1, ⟨.Sec, .Implied, 2⟩)
    | 0xf8 => some (1, ⟨.Sed, .Implied, 2⟩)
    | 0x78 => some (1, ⟨.Sei, .Implied, 2⟩)
    | 0x85 => (decU8 rest).map fun v => (2, ⟨.Sta, .ZeroPage v, 3⟩)
    | 0x95 => (decU8 rest).map fun v => (2, ⟨.Sta, .ZeroPageX v, 4⟩)
    | 0x8d => (decU16 rest).map fun v => (3, ⟨.Sta, .Absolute v, 4⟩)
    | 0x9d => (decU16 rest).map fun v => (3, ⟨.Sta, .AbsoluteX v, 5⟩)
    | 0x99 => (decU16 rest).map fun v => (3, ⟨.Sta, .AbsoluteY v, 5⟩)
    | 0x81 => (decU8 rest).map fun v => (2, ⟨.Sta, .IndirectX v, 6⟩)
    | 0x91 => (decU8 rest).map fun v => (2, ⟨.Sta, .IndirectY v, 6⟩)
    | 0x86 => (decU8 rest).map fun v => (2, ⟨.Stx, .ZeroPage v, 3⟩)
    | 0x96 => (decU8 rest).map fun v => (2, ⟨.Stx, .ZeroPageY v, 4⟩)
    | 0x8e => (decU16 rest).map fun v => (3, ⟨.Stx, .Absolute v, 4⟩)
    | 0x84 => (decU8 rest).map fun v => (2, ⟨.Sty, .ZeroPage v, 3⟩)
    | 0x94 => (decU8 rest).map fun v => (2, ⟨.Sty, .ZeroPageX v, 4⟩)
    | 0x8c => (decU16 rest).map fun v => (3, ⟨.Sty, .Absolute v, 4⟩)
    | 0xaa => some (1, ⟨.Tax, .Implied, 2⟩)
    | 0xa8 => some (1, ⟨.Tay, .Implied, 2⟩)
    | 0xba => some (1, ⟨.Tsx, .Implied, 2⟩)
    | 0x8a => some (1, ⟨.Txa, .Implied, 2⟩)
    | 0x9a => some (1, ⟨.Txs, .Implied, 2⟩)
    | 0x98 => some (1, ⟨.Tya, .Implied, 2⟩)
    | _ => none

/-- Constant `STACK_BOTTOM` (`cpu/mod.rs:530`). -/
def STACK_BOTTOM : Nat := 0x0100

/-- Model of `push_stack` (`cpu/mod.rs:532-539`): the byte is written to
`0x0100 + sp` unconditionally; then `sp.checked_sub(1)` fails with
`StackError::Overflow` exactly when `sp = 0`.  The returned map reflects
the write even on failure (the Rust function mutates before checking). -/
def pushStack (val : Nat) (m : Map) (reg : CpuRegisters) :
    Map × Except StackError CpuRegisters :=
  ( m.write (STACK_BOTTOM + reg.sp) val
  , if reg.sp = 0 then .error .Overflow else .ok { reg with sp := reg.sp - 1 } )

/-- Model of `pop_stack` (`cpu/mod.rs:541-548`): `sp.checked_add(1)`
fails with `StackError::Underflow` exactly when `sp = 0xff`; otherwise
`sp` is incremented and the byte at `0x0100 + sp` is read. -/
def popStack (m : Map) (reg : CpuRegisters) :
    Map × Except StackError (Nat × CpuRegisters) :=
  if reg.sp = 0xff then (m, .error .Underflow)
  else
    let reg1 := { reg with sp := reg.sp + 1 }
    let rd := m.read (STACK_BOTTOM + reg1.sp)
    (rd.2, .ok (rd.1, reg1))

/-- Model of `page_crossed` (`cpu/mod.rs:585-587`). -/
def pageCrossed (a b : Nat) : Bool :=
  decide ((a &&& 0xff00) ≠ (b &&& 0xff00))

/-- Model of `read_mem` (`cpu/mod.rs:589-625`): resolves an addressing
mode to `(value, page_crossed)` and threads the memory map (reads update
its `last_hw_read` marker).  `none` models the `panic!` arm for
`Relative`/`Implied`.  16-bit address additions are taken mod `2^16`
(release-mode wrapping); note that for `AbsoluteX`, `AbsoluteY` and
`IndirectY` the source computes the page-cross penalty by comparing the
effective address with `reg.pc`, not with the operand base address. -/
def readMem (addr : Addressing) (m : Map) (reg : CpuRegisters) :
    Option ((Nat × Bool) × Map) :=
  match addr with
  | .Accumulator => some ((reg.acc, false), m)
  | .Immediate v => some ((v, false), m)
  | .Absolute loc =>
    let rd := m.read loc
    some ((rd.1, false), rd.2)
  | .AbsoluteX loc =>
    let eff := (loc + reg.x) % 65536
    let rd := m.read eff
    some ((rd.1, pageCrossed reg.pc eff), rd.2)
  | .AbsoluteY loc =>
    let eff := (loc + reg.y) % 65536
    let rd := m.read eff
    some ((rd.1, pageCrossed reg.pc eff), rd.2)
  | .Indirect loc =>
    let rd1 := m.read loc
    let rd2 := rd1.2.read ((loc + 1) % 65536)
    let target := rd1.1 ||| (rd2.1 <<< 8)
    let rd3 := rd2.2.read target
    some ((rd3.1, false), rd3.2)
  | .IndirectX loc =>
    let l := loc + reg.x
    let rd1 := m.read l
    let rd2 := rd1.2.read (l + 1)
    let target := rd1.1 ||| (rd2.1 <<< 8)
    let rd3 := rd2.2.read target
    some ((rd3.1, false), rd3.2)
  | .IndirectY loc =>
    let rd1 := m.read loc
    let rd2 := rd1.2.read (loc + 1)
    let target := rd1.1 ||| (rd2.1 <<< 8)
    let eff := (target + reg.y) % 65536
    let rd3 := rd2.2.read eff
    some ((rd3.1, pageCrossed reg.pc eff), rd3.2)
  | .ZeroPage loc =>
    let rd := m.read loc
    some ((rd.1, false), rd.2)
  | .ZeroPageX loc =>
    let rd := m.read ((loc + reg.x) % 256)
    some ((rd.1, false), rd.2)
  | .ZeroPageY loc =>
    let rd := m.read ((loc + reg.y) % 256)
    some ((rd.1, false), rd.2)
  | .Relative _ => none
  | .Implied => none

/-- Outcome of executing one instruction: `panicked` models
`panic!`/`assert!`/`unwrap`/`unreachable!`; `fault` models returning
`Err(CpuError)`; `ok` carries the consumed cycles and the new memory and
registers.  `unmodelled` marks the opcode arms this development does not
translate (none of the claims touches them). -/
inductive ExecOutcome where
  | panicked
  | fault (e : CpuError)
  | ok (cycles : Nat) (m : Map) (reg : CpuRegisters)
  | unmodelled

/-- Cycle count of an `ok` outcome. -/
def ExecOutcome.cyclesOf : ExecOutcome → Option Nat
  | .ok c _ _ => some c
  | _ => none

/-- Register state of an `ok` outcome. -/
def ExecOutcome.regOf : ExecOutcome → Option CpuRegisters
  | .ok _ _ r => some r
  | _ => none

/-- Memory state of an `ok` outcome. -/
def ExecOutcome.memOf : ExecOutcome → Option Map
  | .ok _ m _ => some m
  | _ => none

/-- Model of the `u8::overflowing_add` used by `Adc`. -/
def overflowingAdd (a b : Nat) : Nat × Bool :=
  ((a + b) % 256, decide (a + b ≥ 256))

/-- Model of the `u8::overflowing_sub` used by `Cmp`/`Cpx`/`Cpy`/`Sbc`. -/
def overflowingSub (a b : Nat) : Nat × Bool :=
  if a < b then ((a + 256 - b) % 256, true) else (a - b, false)

/-- Model of `execute_instruction` (`cpu/mod.rs:627-1126`) for the arms
the claims exercise: the nine read instructions subject to the
page-cross penalty (`Adc`, `And`, `Cmp`, `Eor`, `Lda`, `Ldx`, `Ldy`,
`Ora`, `Sbc`) and `Brk`.  `Adc`/`Sbc` assert that decimal mode is off
(`panicked` otherwise).  `Brk` sets the B flag, pushes PC high, PC low
and the packed status, loads PC from `0xfffe/0xffff`, sets the B flag
again (the source never sets the interrupt-disable flag), and returns
7 cycles.  The remaining opcodes are `unmodelled`. -/
def executeInstruction (ins : Instr) (m : Map) (reg : CpuRegisters) : ExecOutcome :=
  match ins.op with
  | .Adc =>
    if reg.status.decimal then .panicked else
    match readMem ins.mode m reg with
    | none => .panicked
    | some ((val, cross), m1) =>
      let orig := reg.acc
      let vo := overflowingAdd reg.acc val
      let st := { reg.status with
        carry := vo.2
        zero := decide (vo.1 = 0)
        overflow := decide (0 ≠ ((orig &&& 0x80) ^^^ (vo.1 &&& 0x80)))
        negative := vo.1.testBit 7 }
      .ok (ins.baseCycles + if cross then 1 else 0) m1 { reg with acc := vo.1, status := st }
  | .And =>
    match readMem ins.mode m reg with
    | none => .panicked
    | some ((val, cross), m1) =>
      let a := val &&& reg.acc
      let st := { reg.status with zero := decide (a = 0), negative := a.testBit 7 }
      .ok (ins.baseCycles + if cross then 1 else 0) m1 { reg with acc := a, status := st }
  | .Cmp =>
    match readMem ins.mode m reg with
    | none => .panicked
    | some ((val, cross), m1) =>
      let vo := overflowingSub reg.acc val
      let st :=
        if vo.2 then
          { reg.status with carry := false, zero := false, negative := vo.1.testBit 7 }
        else
          { reg.status with carry := true, zero := decide (vo.1 = 0), negative := false }
      .ok (ins.baseCycles + if cross then 1 else 0) m1 { reg with status := st }
  | .Eor =>
    match readMem ins.mode m reg with
    | none => .panicked
    | some ((val, cross), m1) =>
      let a := reg.acc ^^^ val
      let st := { reg.status with zero := decide (a = 0), negative := a.testBit 7 }
      .ok (ins.baseCycles + if cross then 1 else 0) m1 { reg with acc := a, status := st }
  | .Lda =>
    match readMem ins.mode m reg with
    | none => .panicked
    | some ((val, cross), m1) =>
      let st := { reg.status with zero := decide (val = 0), negative := val.testBit 7 }
      .ok (ins.baseCycles + if cross then 1 else 0) m1 { reg with acc := val, status := st }
  | .Ldx =>
    match readMem ins.mode m reg with
    | none => .panicked
    | some ((val, cross), m1) =>
      let st := { reg.status with zero := decide (val = 0), negative := val.testBit 7 }
      .ok (ins.baseCycles + if cross then 1 else 0) m1 { reg with x := val, status := st }
  | .Ldy =>
    match readMem ins.mode m reg with
    | none => .panicked
    | some ((val, cross), m1) =>
      let st := { reg.status with zero := decide (val = 0), negative := val.testBit 7 }
      .ok (ins.baseCycles + if cross then 1 else 0) m1 { reg with y := val, status := st }
  | .Ora =>
    match readMem ins.mode m reg with
    | none => .panicked
    | some ((val, cross), m1) =>
      let a := reg.acc ||| val
      let st := { reg.status with zero := decide (a = 0), negative := a.testBit 7 }
      .ok (ins.baseCycles + if cross then 1 else 0) m1 { reg with acc := a, status := st }
  | .Sbc =>
    if reg.status.decimal then .panicked else
    match readMem ins.mode m reg with
    | none => .panicked
    | some ((val, cross), m1) =>
      let orig := reg.acc
      let vo := overflowingSub reg.acc val
      let st := { reg.status with
        carry := !vo.2
        zero := decide (vo.1 = 0)
        overflow := decide (0 ≠ ((orig &&& 0x80) ^^^ (vo.1 &&& 0x80)))
        negative := vo.1.testBit 7 }
      .ok (ins.baseCycles + if cross then 1 else 0) m1 { reg with acc := vo.1, status := st }
  | .Brk =>
    let reg1 := { reg with status := { reg.status with brk := true } }
    match pushStack ((reg1.pc &&& 0xff00) >>> 8) m reg1 with
    | (_, .error e) => .fault (.Stack e)
    | (m1, .ok reg2) =>
      match pushStack (reg2.pc &&& 0x00ff) m1 reg2 with
      | (_, .error e) => .fault (.Stack e)
      | (m2, .ok reg3) =>
        match pushStack (statusToByte reg3.status) m2 reg3 with
        | (_, .error e) => .fault (.Stack e)
        | (m3, .ok reg4) =>
          let rd1 := m3.read 0xfffe
          let rd2 := rd1.2.read 0xffff
          let reg5 := { reg4 with
            pc := (rd2.1 <<< 8) ||| rd1.1
            status := { reg4.status with brk := true } }
          .ok 7 rd2.2 reg5
  | _ => .unmodelled

/-- Model of `Cpu::step` (`cpu/mod.rs:1169-1183`): decode four bytes at
`pc` and `unwrap()` the result — a decode failure is a `panic!`, not a
returned `CpuError` — then advance `pc` by the instruction length and
execute. -/
def cpuStep (m : Map) (reg : CpuRegisters) : ExecOutcome :=
  let region := [m.bytes reg.pc, m.bytes (reg.pc + 1), m.bytes (reg.pc + 2), m.bytes (reg.pc + 3)]
  match decodeInstruction region with
  | none => .panicked
  | some (bytes, ins) =>
    executeInstruction ins m { reg with pc := (reg.pc + bytes) % 65536 }

/-! ## Helper lemmas -/

theorem map_const_eq_some {α β : Type} (o : Option α) (b : β) :
    o.map (fun _ => b) = some b ↔ o.isSome := by
  cases o <;> simp

theorem map_read_write_same (m : Map) (loc v : Nat) :
    ((m.write loc v).read loc).1 = v := by
  simp [Map.read, Map.write]

theorem switchPagedRomTo_hw_ranges (m : Map) (n : Nat) :
    (m.switchPagedRomTo n).hw_ranges = m.hw_ranges := by
  unfold Map.switchPagedRomTo
  split
  · rfl
  · split
    · split <;> rfl
    · rfl

theorem write_hw_ranges (m : Map) (loc v : Nat) :
    (m.write loc v).hw_ranges = m.hw_ranges := by
  unfold Map.write
  split <;> simp [switchPagedRomTo_hw_ranges]

theorem valueWithinRange_eq_true (a : Nat) (r : Nat × Nat) :
    valueWithinRange a r = true ↔ (r.1 ≤ a ∧ a ≤ r.2) := by
  simp [valueWithinRange]

theorem writePortBIo_some (r : ViaRegisters) (v : Nat) :
    r.writePortBIo v =
      some { r with
        pb := r.pb.write v,
        latches := updLatch r.latches (v &&& 0x03) (v.testBit 3) } := by
  have hle : v &&& 0x03 ≤ 3 := Nat.and_le_right
  by_cases h0 : v &&& 0x03 = 0
  · simp [ViaRegisters.writePortBIo, h0, SOUND_IC_LATCH]
  · by_cases h1 : v &&& 0x03 = 1
    · simp [ViaRegisters.writePortBIo, h0, h1, SPEECH_READ_IC_LATCH]
    · by_cases h2 : v &&& 0x03 = 2
      · simp [ViaRegisters.writePortBIo, h0, h1, h2, SPEECH_WRITE_IC_LATCH]
      · have h3 : v &&& 0x03 = 3 := by omega
        simp [ViaRegisters.writePortBIo, h0, h1, h2, h3, KEYBOARD_IC_LATCH]

theorem comp8_testBit (x j : Nat) :
    (comp8 x).testBit j = (decide (j < 8) && !x.testBit j) := by
  have e : (0xff : Nat) = 2 ^ 8 - 1 := by norm_num
  rw [comp8, e, Nat.testBit_xor, Nat.testBit_and, Nat.testBit_two_pow_sub_one]
  by_cases hj : j < 8 <;> simp [hj]

theorem clearFlags_testBit_low (i : Interrupts) (v j : Nat) (hj : j < 7) :
    (i.clearFlags v).flags.testBit j = (i.flags.testBit j && !v.testBit j) := by
  have h80 : (0x80 : Nat) = 2 ^ 7 := by norm_num
  have h7f : (0x7f : Nat) = 2 ^ 7 - 1 := by norm_num
  have d1 : decide (j < 8) = true := by simp; omega
  have d2 : decide (j < 7) = true := by simp [hj]
  have d3 : decide (7 = j) = false := by simp; omega
  show (if (i.flags &&& comp8 (v &&& 0x7f)) &&& 0x7f ≠ 0
        then (i.flags &&& comp8 (v &&& 0x7f)) ||| 0x80
        else (i.flags &&& comp8 (v &&& 0x7f))).testBit j = _
  split
  · rw [Nat.testBit_or, Nat.testBit_and, comp8_testBit, Nat.testBit_and, h80, h7f,
      Nat.testBit_two_pow, Nat.testBit_two_pow_sub_one, d1, d2, d3]
    simp
  · rw [Nat.testBit_and, comp8_testBit, Nat.testBit_and, h7f,
      Nat.testBit_two_pow_sub_one, d1, d2]
    simp

theorem flagsReg_bit7 (i : Interrupts) :
    i.flagsReg.testBit 7 = decide (i.flagsReg &&& 0x7f ≠ 0) := by
  have h80 : (0x80 : Nat) = 2 ^ 7 := by norm_num
  have h7f : (0x7f : Nat) = 2 ^ 7 - 1 := by norm_num
  unfold Interrupts.flagsReg
  split
  · rename_i h
    have hL : (0x80 ||| i.flags &&& 0x7f) &&& 0x7f = i.flags &&& 0x7f := by
      apply Nat.eq_of_testBit_eq
      intro j
      rw [Nat.testBit_and, Nat.testBit_or, Nat.testBit_and, h80, h7f,
        Nat.testBit_two_pow, Nat.testBit_two_pow_sub_one]
      by_cases hj : j < 7
      · have d3 : decide (7 = j) = false := by simp; omega
        simp [hj, d3]
      · simp [hj]
    rw [hL]
    have hne : i.flags &&& 0x7f ≠ 0 := by omega
    rw [Nat.testBit_or, h80, Nat.testBit_two_pow]
    simp [hne]
  · simp

theorem and15_eq_mod (x : Nat) : x &&& 15 = x % 16 := by
  have h := Nat.and_pow_two_sub_one_eq_mod x 4
  norm_num at h
  exact h

theorem keyDown_fold_next (ks : List Nat) (b : KeyboardBuffer) (h : b.next < 16) :
    (ks.foldl KeyboardBuffer.keyDown b).next = (b.next + ks.length) % 16 := by
  induction ks generalizing b with
  | nil => simp [Nat.mod_eq_of_lt h]
  | cons k ks ih =>
    simp only [List.foldl_cons, List.length_cons]
    have hnext : (b.keyDown k).next = (b.next + 1) % 16 := by
      simp [KeyboardBuffer.keyDown, and15_eq_mod]
    have hlt : (b.keyDown k).next < 16 := by
      rw [hnext]; exact Nat.mod_lt _ (by norm_num)
    rw [ih _ hlt, hnext, Nat.mod_add_mod]
    omega

theorem isEmulatedKeyDown_next_zero (b : KeyboardBuffer) (rc : Nat) (h : b.next = 0) :
    b.isEmulatedKeyDown rc = false := by
  have hh : b.held = [] := by simp [KeyboardBuffer.held, h]
  simp [KeyboardBuffer.isEmulatedKeyDown, hh, keyMap]

theorem writePortA2Io_empty (r : ViaRegisters) (v : Nat)
    (hn : r.keyboard_buffer.next = 0) (hkb : r.latches KEYBOARD_IC_LATCH = false) :
    r.writePortA2Io v =
      { r with pa2 := { ioLatch := v &&& 0x7f, ddr := r.pa2.ddr } } := by
  have hkey : ∀ rc, r.keyboard_buffer.isEmulatedKeyDown rc = false :=
    fun rc => isEmulatedKeyDown_next_zero _ rc hn
  simp [ViaRegisters.writePortA2Io, KeyboardBuffer.len, hn, hkey,
    ViaRegisters.isKeyboardWriteEnabled, hkb, PeripheralPort.write]

theorem signalOne_testBit_self (i : Interrupts) (t : Nat) (ht : t < 8) :
    (i.signalOne t).flags.testBit t = true := by
  unfold Interrupts.signalOne
  rw [Nat.testBit_or, Nat.testBit_or]
  have h1 : (t &&& 7 : Nat) = t % 8 := by
    have h := Nat.and_pow_two_sub_one_eq_mod t 3
    norm_num at h
    exact h
  have h2 : t % 8 = t := Nat.mod_eq_of_lt ht
  have h3 : (1 <<< t : Nat).testBit t = true := by
    rw [Nat.one_shiftLeft, Nat.testBit_two_pow]
    simp
  rw [h1, h2]
  simp [h3]

theorem signalOne_testBit_mono (i : Interrupts) (t j : Nat)
    (h : i.flags.testBit j = true) : (i.signalOne t).flags.testBit j = true := by
  unfold Interrupts.signalOne
  rw [Nat.testBit_or]
  simp [h]

theorem step_quiet (s : ViaSystem) (cycles : Nat) (m : Map)
    (hw : m.last_hw_write = none) :
    s.step cycles m =
      (let s1 : ViaSystem := { s with
          cycles_elapsed := (s.cycles_elapsed + cycles) % 2 ^ 64,
          timer_count := s.timer_count + cycles }
       let s3 := if TIMER_FREQ ≤ s.timer_count + cycles then
           { s1 with
             registers := { s1.registers with interrupts :=
               (s1.registers.interrupts.signalOne TIMER1_INT).signalOne VSYNC_INT },
             timer_count := s.timer_count + cycles - TIMER_FREQ }
         else s1
       let d := s3.registers.interrupts.drainSignalled
       let s4 := { s3 with registers := { s3.registers with interrupts := d.2 } }
       some (s4, s4.registers.writeTo m, decide (iterCount d.1 > 0))) := by
  unfold ViaSystem.step
  rw [hw]
  rfl

/-! ## Claims -/

/-- Claim C9: `push(v)` writes `v` to `0x0100 + sp` and then decrements
`sp`, failing with `StackError::Overflow` exactly when `sp = 0`; `pop`
increments `sp` and then reads from `0x0100 + sp`, failing with
`StackError::Underflow` exactly when `sp = 0xff`; and for `sp ≥ 1` the
sequence `push(v); pop()` restores `sp` and returns `v`. -/
theorem c9_stack_push_pop (m : Map) (reg : CpuRegisters) (v : Nat)
    (hsp : reg.sp ≤ 0xff) :
    (pushStack v m reg).1 = m.write (STACK_BOTTOM + reg.sp) v
    ∧ ((pushStack v m reg).2 = .error .Overflow ↔ reg.sp = 0)
    ∧ (reg.sp ≠ 0 → (pushStack v m reg).2 = .ok { reg with sp := reg.sp - 1 })
    ∧ ((popStack m reg).2 = .error .Underflow ↔ reg.sp = 0xff)
    ∧ (reg.sp ≠ 0xff →
        (popStack m reg).2 =
          .ok ((m.read (STACK_BOTTOM + (reg.sp + 1))).1, { reg with sp := reg.sp + 1 }))
    ∧ (1 ≤ reg.sp →
        ∃ reg1, (pushStack v m reg).2 = .ok reg1
          ∧ ∃ r2, (popStack (pushStack v m reg).1 reg1).2 = .ok (v, r2)
              ∧ r2.sp = reg.sp) := by
  refine ⟨rfl, ?_, ?_, ?_, ?_, ?_⟩
  · by_cases h : reg.sp = 0 <;> simp [pushStack, h]
  · intro h; simp [pushStack, h]
  · by_cases h : reg.sp = 0xff <;> simp [popStack, h]
  · intro h; simp [popStack, h]
  · intro h1
    have hne : reg.sp ≠ 0 := by omega
    have h2 : reg.sp - 1 ≠ 0xff := by omega
    have h3 : reg.sp - 1 + 1 = reg.sp := by omega
    refine ⟨{ reg with sp := reg.sp - 1 }, by simp [pushStack, hne], ?_⟩
    refine ⟨{ reg with sp := reg.sp - 1 + 1 }, ?_, by simp [h3]⟩
    simp only [popStack, h2, if_false, pushStack]
    rw [h3]
    simp [map_read_write_same]

/-- Claim C9 witness: the stack contract instantiated at `sp = 0x10`,
`v = 0x42` on a fresh memory map. -/
theorem c9_stack_push_pop_witness :
    ∃ reg1, (pushStack 0x42 Map.new { CpuRegisters.new with sp := 0x10 }).2 = .ok reg1
      ∧ ∃ r2, (popStack (pushStack 0x42 Map.new { CpuRegisters.new with sp := 0x10 }).1 reg1).2 =
            .ok (0x42, r2)
          ∧ r2.sp = ({ CpuRegisters.new with sp := 0x10 } : CpuRegisters).sp :=
  (c9_stack_push_pop Map.new { CpuRegisters.new with sp := 0x10 } 0x42 (by decide)).2.2.2.2.2
    (by decide)

/-- Claim C6 (amended): the hardware-window membership test is inclusive
of the range end (`value_within_range` uses `val <= range.end`): after
`read(a)`, `last_hw_read = Some a` iff some declared range satisfies
`start ≤ a ∧ a ≤ end`, and `None` otherwise; likewise for
`write(a, v)` and `last_hw_write`.  In particular an access at exactly a
window's end address does record the marker. -/
theorem c6_hw_marker_inclusive (m : Map) (a v : Nat) :
    ((m.read a).2.last_hw_read = some a ↔ ∃ r ∈ m.hw_ranges, r.1 ≤ a ∧ a ≤ r.2)
    ∧ ((m.read a).2.last_hw_read = none ↔ ∀ r ∈ m.hw_ranges, ¬(r.1 ≤ a ∧ a ≤ r.2))
    ∧ ((m.write a v).last_hw_write = some (a, v) ↔ ∃ r ∈ m.hw_ranges, r.1 ≤ a ∧ a ≤ r.2)
    ∧ ((m.write a v).last_hw_write = none ↔ ∀ r ∈ m.hw_ranges, ¬(r.1 ≤ a ∧ a ≤ r.2)) := by
  have hw : (if a = PAGED_ROM_REGISTER then m.switchPagedRomTo v else m).hw_ranges
      = m.hw_ranges := by
    split <;> simp [switchPagedRomTo_hw_ranges]
  refine ⟨?_, ?_, ?_, ?_⟩
  · rw [show (m.read a).2.last_hw_read =
        ((m.hw_ranges.find? (fun r => valueWithinRange a r)).map fun _ => a) from rfl,
      map_const_eq_some, List.find?_isSome]
    simp [valueWithinRange_eq_true]
  · rw [show (m.read a).2.last_hw_read =
        ((m.hw_ranges.find? (fun r => valueWithinRange a r)).map fun _ => a) from rfl,
      Option.map_eq_none', List.find?_eq_none]
    simp [valueWithinRange_eq_true]
  · rw [show (m.write a v).last_hw_write =
        (((if a = PAGED_ROM_REGISTER then m.switchPagedRomTo v else m).hw_ranges.find?
          (fun r => valueWithinRange a r)).map fun _ => (a, v)) from rfl,
      hw, map_const_eq_some, List.find?_isSome]
    simp [valueWithinRange_eq_true]
  · rw [show (m.write a v).last_hw_write =
        (((if a = PAGED_ROM_REGISTER then m.switchPagedRomTo v else m).hw_ranges.find?
          (fun r => valueWithinRange a r)).map fun _ => (a, v)) from rfl,
      hw, Option.map_eq_none', List.find?_eq_none]
    simp [valueWithinRange_eq_true]

/-- Claim C6 counterexample: with the declared hardware range
`0xfe00..0xff00`, a read at exactly the end address `0xff00` records
`last_hw_read = Some 0xff00`, although `0xff00` does not lie in the
half-open range (`¬ 0xff00 < 0xff00`); the claim requires `None` there. -/
theorem c6_counterexample :
    ((Map.new.withHwRange (0xfe00, 0xff00)).read 0xff00).2.last_hw_read = some 0xff00
    ∧ ¬(0xff00 < 0xff00) :=
  ⟨rfl, by omega⟩

/-- Claim C2: paged-ROM round trip on two 16 KiB ROMs A (all `0xaa`) and
B (all `0xbb`).  The source never assigns `current_paged_rom`, so the
copy-back branch of `switch_paged_rom_to` never runs: after paging in A
(write 0 to `0xfe30`), modifying `0x8000` to `0x55`, switching to B
(write 1) and back to A (write 0), the byte at `0x8000` is the original
`A[0] = 0xaa` — the modification was not persisted, and A's backing
image still holds `0xaa`.  The parts of the claim that do hold are also
recorded: `B[0]` appears after the switch to B, and an out-of-range
slot index leaves the window unchanged. -/
theorem c2_paged_rom_copy_back_missing :
    let romA : Rom := { size := 0x4000, data := fun _ => 0xaa }
    let romB : Rom := { size := 0x4000, data := fun _ => 0xbb }
    let m0 := (Map.new.addPagedRom romA).addPagedRom romB
    let m1 := m0.write 0xfe30 0
    let m2 := m1.write 0x8000 0x55
    let m3 := m2.write 0xfe30 1
    let m4 := m3.write 0xfe30 0
    let m5 := m4.write 0xfe30 7
    m1.bytes 0x8000 = 0xaa
    ∧ m2.bytes 0x8000 = 0x55
    ∧ m3.bytes 0x8000 = 0xbb
    ∧ m4.bytes 0x8000 = 0xaa
    ∧ m3.current_paged_rom = none
    ∧ (m3.paged_roms.get? 0).map (fun r => r.data 0) = some 0xaa
    ∧ m5.bytes 0x8000 = 0xaa := by
  decide

set_option maxRecDepth 10000 in
/-- Claim C4: when the byte at `pc` does not decode, `Cpu::step` calls
`decode_instruction(..).unwrap()` — the step panics rather than
returning `CpuError::InvalidInstruction` to the orchestrator.  The
general part shows every decode failure ends in the panic outcome; the
concrete part evaluates the step on a memory whose `pc` byte is the
undecodable opcode `0x02`. -/
theorem c4_invalid_opcode_panics :
    (∀ (m : Map) (reg : CpuRegisters),
        decodeInstruction
          [m.bytes reg.pc, m.bytes (reg.pc + 1), m.bytes (reg.pc + 2), m.bytes (reg.pc + 3)]
          = none →
        cpuStep m reg = .panicked)
    ∧ decodeInstruction [0x02, 0x00, 0x00, 0x00] = none
    ∧ cpuStep { Map.new with bytes := fun a => if a = 0x1000 then 0x02 else 0 }
        { CpuRegisters.new with pc := 0x1000 } = .panicked := by
  refine ⟨?_, by decide, rfl⟩
  intro m reg h
  simp only [cpuStep, h]

/-- Claim C4 witness: the general panic-on-decode-failure fact applied
at the concrete memory holding the undecodable byte `0x02` at `pc =
0x2000`. -/
theorem c4_invalid_opcode_panics_witness :
    cpuStep { Map.new with bytes := fun a => if a = 0x2000 then 0x02 else 0 }
      { CpuRegisters.new with pc := 0x2000 } = .panicked :=
  c4_invalid_opcode_panics.1
    { Map.new with bytes := fun a => if a = 0x2000 then 0x02 else 0 }
    { CpuRegisters.new with pc := 0x2000 } rfl

/-- Claim C5: executing `BRK` from `pc = 0x1234`, `sp = 0xff` with the
IRQ vector `0xfffe/0xffff` holding `0x78/0x56` pushes PC high (`0x12`),
PC low (`0x34`) and the packed status with B = 1 (`0x30`), loads
`pc = 0x5678`, and returns 7 cycles — but the interrupt-disable flag is
NOT set: the source sets `status.brk` twice (`cpu/mod.rs:777` and
`:784`) and never touches `status.interrupt`, so the outcome's
interrupt flag is still `false` where the claim requires `true`. -/
theorem c5_brk_does_not_set_interrupt :
    let m : Map := { Map.new with bytes := fun a =>
      if a = 0xfffe then 0x78 else if a = 0xffff then 0x56 else 0 }
    let reg : CpuRegisters :=
      { pc := 0x1234, sp := 0xff, acc := 0, x := 0, y := 0, status := StatusFlags.new }
    (executeInstruction ⟨.Brk, .Implied, 7⟩ m reg).cyclesOf = some 7
    ∧ (executeInstruction ⟨.Brk, .Implied, 7⟩ m reg).regOf.map (fun r => r.pc) = some 0x5678
    ∧ (executeInstruction ⟨.Brk, .Implied, 7⟩ m reg).regOf.map (fun r => r.sp) = some 0xfc
    ∧ (executeInstruction ⟨.Brk, .Implied, 7⟩ m reg).memOf.map (fun mm => mm.bytes 0x01ff)
        = some 0x12
    ∧ (executeInstruction ⟨.Brk, .Implied, 7⟩ m reg).memOf.map (fun mm => mm.bytes 0x01fe)
        = some 0x34
    ∧ (executeInstruction ⟨.Brk, .Implied, 7⟩ m reg).memOf.map (fun mm => mm.bytes 0x01fd)
        = some 0x30
    ∧ (executeInstruction ⟨.Brk, .Implied, 7⟩ m reg).regOf.map (fun r => r.status.brk)
        = some true
    ∧ (executeInstruction ⟨.Brk, .Implied, 7⟩ m reg).regOf.map (fun r => r.status.interrupt)
        = some false := by
  decide

/-- Claim C1: the page-cross penalty in `read_mem` compares the
effective address with `reg.pc` (`page_crossed(reg.pc, ..)`,
`cpu/mod.rs:599-600,618`), not with the operand base address.  First
half: `LDA $8000,X` with `x = 1`, `pc = 0x2000` costs 5 cycles even
though base `0x8000` and effective `0x8001` share a page (the claim
requires 4).  Second half: `LDA $80ff,X` with `x = 1`, `pc = 0x8100`
costs 4 cycles even though base `0x80ff` and effective `0x8100` are on
different pages (the claim requires 5). -/
theorem c1_page_cross_compares_pc :
    ((executeInstruction ⟨.Lda, .AbsoluteX 0x8000, 4⟩ Map.new
        { pc := 0x2000, sp := 0xff, acc := 0, x := 1, y := 0,
          status := StatusFlags.new }).cyclesOf = some 5
      ∧ (0x8000 &&& 0xff00) = ((0x8000 + 1) % 65536 &&& 0xff00))
    ∧ ((executeInstruction ⟨.Lda, .AbsoluteX 0x80ff, 4⟩ Map.new
        { pc := 0x8100, sp := 0xff, acc := 0, x := 1, y := 0,
          status := StatusFlags.new }).cyclesOf = some 4
      ∧ (0x80ff &&& 0xff00) ≠ ((0x80ff + 1) % 65536 &&& 0xff00)) := by
  decide

/-- Claim C8: `write_port_b_io` decodes the IC selector as `val & 0x03`
(two bits, `registers.rs:136`), not `val & 0x07`, so only the first
four latches are ever written: for every write, latches 4-7
(hw-scroll-lo, hw-scroll-hi, caps-LED, shift-LED) are unchanged (and the
`panic!` arm is unreachable, so the call always succeeds).  Concretely,
writing `0x0c` (selector bits `0..2` = 4, value bit 3 = 1), which the
claim says must set the hw-scroll-lo latch, instead sets the sound
latch. -/
theorem c8_port_b_latch_select :
    (∀ (r : ViaRegisters) (v : Nat), ∃ r1, r.writePortBIo v = some r1
        ∧ r1.latches HW_SCROLL_LOW_LATCH = r.latches HW_SCROLL_LOW_LATCH
        ∧ r1.latches HW_SCROLL_HIGH_LATCH = r.latches HW_SCROLL_HIGH_LATCH
        ∧ r1.latches CAPS_LATCH = r.latches CAPS_LATCH
        ∧ r1.latches SHIFT_LATCH = r.latches SHIFT_LATCH)
    ∧ (∃ r1, ViaRegisters.new.writePortBIo 0x0c = some r1
        ∧ r1.latches SOUND_IC_LATCH = true
        ∧ r1.latches HW_SCROLL_LOW_LATCH = false)
    ∧ (0x0c &&& 0x07 = HW_SCROLL_LOW_LATCH)
    ∧ (∃ r1, ViaRegisters.new.writePortBIo 0x0b = some r1
        ∧ r1.latches KEYBOARD_IC_LATCH = true) := by
  refine ⟨?_, ⟨_, rfl, rfl, rfl⟩, by decide, ⟨_, rfl, rfl⟩⟩
  intro r v
  have hle : v &&& 0x03 ≤ 3 := Nat.and_le_right
  refine ⟨_, writePortBIo_some r v, ?_, ?_, ?_, ?_⟩ <;>
    · simp only [updLatch, HW_SCROLL_LOW_LATCH, HW_SCROLL_HIGH_LATCH, CAPS_LATCH, SHIFT_LATCH]
      rw [if_neg (by omega)]

/-- Claim C7: a CPU write of `v` to the IFR (`0xfe4d`) is routed by the
VIA to `clear_flags(v)`; the write clears exactly the flag bits 0-6
set in `v`; bit 7 of the IFR value (`flags()`, the byte rendered into
the register window) always equals whether any low bit remains; and
the concrete runs: internal flags `0x23`, write `0xa1` yields `0x82`,
and a further write of `0x02` (clearing the last low bit) yields an
IFR value of `0` with bit 7 clear. -/
theorem c7_ifr_write (s : ViaSystem) (i : Interrupts) (v : Nat) :
    (s.processReadsAndWrites none (some (IFR_REGISTER, v)) =
      some { s with registers := { s.registers with
        interrupts := s.registers.interrupts.clearFlags v } })
    ∧ (∀ j, j < 7 →
        (i.clearFlags v).flags.testBit j = (i.flags.testBit j && !v.testBit j))
    ∧ ((i.clearFlags v).flagsReg.testBit 7 ↔ (i.clearFlags v).flagsReg &&& 0x7f ≠ 0)
    ∧ (Interrupts.clearFlags ⟨0x23, 0, 0⟩ 0xa1).flags = 0x82
    ∧ (Interrupts.clearFlags ⟨0x23, 0, 0⟩ 0xa1).flagsReg = 0x82
    ∧ (Interrupts.clearFlags (Interrupts.clearFlags ⟨0x23, 0, 0⟩ 0xa1) 0x02).flagsReg = 0
    ∧ (Interrupts.clearFlags (Interrupts.clearFlags ⟨0x23, 0, 0⟩ 0xa1) 0x02).flagsReg.testBit 7
        = false := by
  refine ⟨rfl, ?_, ?_, by decide, by decide, by decide, by decide⟩
  · intro j hj
    exact clearFlags_testBit_low i v j hj
  · rw [flagsReg_bit7]
    simp

/-- Claim C7 witness: the IFR-write contract applied at the concrete
state `flags = 0x23` with write operand `0xa1`, checking bit 0 (which
`0xa1` clears). -/
theorem c7_ifr_write_witness :
    (Interrupts.clearFlags ⟨0x23, 0, 0⟩ 0xa1).flags.testBit 0
      = ((0x23 : Nat).testBit 0 && !(0xa1 : Nat).testBit 0) :=
  (c7_ifr_write ViaSystem.new ⟨0x23, 0, 0⟩ 0xa1).2.1 0 (by omega)

/-- Claim C10: the keyboard ring treats only `buffer[..next]` as held
keys.  `key_down` stores at index `next` and advances `next` with 4-bit
wraparound; after exactly 16 `key_down` calls from the fresh buffer
(with no intervening clear), `next` has wrapped to 0, every key probe
reports no key down, and a Port A I/O write neither changes the
interrupt state (no Keyboard signal, since the ring-non-empty test
consults only `buffer[..next]`) nor leaves bit 7 of the port A2 latch
set. -/
theorem c10_keyboard_ring (ks : List Nat) (h : ks.length = 16) :
    (∀ (b : KeyboardBuffer) (k : Nat),
        (b.keyDown k).next = (b.next + 1) &&& 0x0f ∧ (b.keyDown k).buffer b.next = k)
    ∧ (ks.foldl KeyboardBuffer.keyDown KeyboardBuffer.default).next = 0
    ∧ (∀ rc, (ks.foldl KeyboardBuffer.keyDown KeyboardBuffer.default).isEmulatedKeyDown rc
        = false)
    ∧ (∀ v,
        (({ ViaRegisters.new with
            keyboard_buffer := ks.foldl KeyboardBuffer.keyDown KeyboardBuffer.default
          } : ViaRegisters).writePortA2Io v).interrupts = ViaRegisters.new.interrupts
        ∧ (({ ViaRegisters.new with
            keyboard_buffer := ks.foldl KeyboardBuffer.keyDown KeyboardBuffer.default
          } : ViaRegisters).writePortA2Io v).pa2.ioLatch.testBit 7 = false) := by
  have hnext : (ks.foldl KeyboardBuffer.keyDown KeyboardBuffer.default).next = 0 := by
    rw [keyDown_fold_next ks KeyboardBuffer.default (by simp [KeyboardBuffer.default])]
    simp [KeyboardBuffer.default, h]
  refine ⟨?_, hnext, ?_, ?_⟩
  · intro b k
    exact ⟨rfl, by simp [KeyboardBuffer.keyDown]⟩
  · intro rc
    exact isEmulatedKeyDown_next_zero _ rc hnext
  · intro v
    rw [writePortA2Io_empty _ v hnext rfl]
    refine ⟨rfl, ?_⟩
    have h7f : (0x7f : Nat) = 2 ^ 7 - 1 := by norm_num
    show ((v &&& 0x7f : Nat).testBit 7) = false
    rw [Nat.testBit_and, h7f, Nat.testBit_two_pow_sub_one]
    simp

/-- Claim C10 witness: sixteen presses of host key 26 (Q) wrap the ring
to empty: `next = 0` and the `(row, col) = (1, 0)` probe for Q itself
finds no key down. -/
theorem c10_keyboard_ring_witness :
    ((List.replicate 16 26).foldl KeyboardBuffer.keyDown KeyboardBuffer.default).next = 0
    ∧ ((List.replicate 16 26).foldl KeyboardBuffer.keyDown
        KeyboardBuffer.default).isEmulatedKeyDown 0x10 = false :=
  ⟨(c10_keyboard_ring (List.replicate 16 26) rfl).2.1,
   (c10_keyboard_ring (List.replicate 16 26) rfl).2.2.1 0x10⟩

/-- Claim C3 counterexample: stepping a fresh VIA by 40000 cycles —
one full 20 ms boundary under the claim's `cycles_per_ms x 20` period —
signals nothing: the interrupt flags stay 0, the IRQ callback does not
fire, and the accumulator holds 40000 un-reset, because `TIMER_FREQ` in
the source is `CYCLES_PER_MS * 200` = 400000 cycles, not 40000. -/
theorem c3_counterexample :
    ((ViaSystem.new.step 40000 Map.new).map
        (fun r => (r.1.timer_count, r.1.registers.interrupts.flags, r.2.2)))
      = some (40000, 0, false)
    ∧ CYCLES_PER_MS * 20 = 40000 := by
  exact ⟨rfl, rfl⟩

/-- Claim C3 (amended): with no pending hardware write, `step(cycles)`
adds `cycles` to the `timer_count` accumulator and signals both Timer1
and VerticalSync exactly when the accumulator reaches
`TIMER_FREQ = CYCLES_PER_MS * 200 = 400000` cycles (a 200 ms period,
not 20 ms), resetting the accumulator by subtracting the period. -/
theorem c3_timer_period (s : ViaSystem) (cycles : Nat) (m : Map)
    (hw : m.last_hw_write = none) :
    ∃ s4 m2 irq, s.step cycles m = some (s4, m2, irq)
    ∧ s4.timer_count =
        (if TIMER_FREQ ≤ s.timer_count + cycles
         then s.timer_count + cycles - TIMER_FREQ
         else s.timer_count + cycles)
    ∧ (TIMER_FREQ ≤ s.timer_count + cycles →
        s4.registers.interrupts.flags.testBit TIMER1_INT = true
        ∧ s4.registers.interrupts.flags.testBit VSYNC_INT = true)
    ∧ (s.timer_count + cycles < TIMER_FREQ →
        s4.registers.interrupts.flags = s.registers.interrupts.flags)
    ∧ TIMER_FREQ = CYCLES_PER_MS * 200
    ∧ TIMER_FREQ = 400000 := by
  rw [step_quiet s cycles m hw]
  by_cases hc : TIMER_FREQ ≤ s.timer_count + cycles
  · simp only [if_pos hc]
    refine ⟨_, _, _, rfl, by simp [Interrupts.drainSignalled, hc], ?_, ?_, rfl, rfl⟩
    · intro _
      constructor
      · exact signalOne_testBit_mono _ VSYNC_INT TIMER1_INT
          (signalOne_testBit_self _ TIMER1_INT (by norm_num [TIMER1_INT]))
      · exact signalOne_testBit_self _ VSYNC_INT (by norm_num [VSYNC_INT])
    · intro hlt
      omega
  · simp only [if_neg hc]
    refine ⟨_, _, _, rfl, by simp [Interrupts.drainSignalled, hc], ?_, ?_, rfl, rfl⟩
    · intro hge
      omega
    · intro _
      simp [Interrupts.drainSignalled]

/-- Claim C3 witness: the amended timer contract applied at an
accumulator of 399999 and a 1-cycle step on a fresh memory map. -/
theorem c3_timer_period_witness :
    ∃ s4 m2 irq,
      ({ ViaSystem.new with timer_count := 399999 } : ViaSystem).step 1 Map.new
        = some (s4, m2, irq)
      ∧ s4.timer_count =
          (if TIMER_FREQ ≤ ({ ViaSystem.new with timer_count := 399999 } :
              ViaSystem).timer_count + 1
           then ({ ViaSystem.new with timer_count := 399999 } :
              ViaSystem).timer_count + 1 - TIMER_FREQ
           else ({ ViaSystem.new with timer_count := 399999 } :
              ViaSystem).timer_count + 1)
      ∧ (TIMER_FREQ ≤ ({ ViaSystem.new with timer_count := 399999 } :
            ViaSystem).timer_count + 1 →
          s4.registers.interrupts.flags.testBit TIMER1_INT = true
          ∧ s4.registers.interrupts.flags.testBit VSYNC_INT = true)
      ∧ (({ ViaSystem.new with timer_count := 399999 } : ViaSystem).timer_count + 1
            < TIMER_FREQ →
          s4.registers.interrupts.flags =
            ({ ViaSystem.new with timer_count := 399999 } :
              ViaSystem).registers.interrupts.flags)
      ∧ TIMER_FREQ = CYCLES_PER_MS * 200
      ∧ TIMER_FREQ = 400000 :=
  c3_timer_period { ViaSystem.new with timer_count := 399999 } 1 Map.new rfl

end BbcEm
